import Mathlib

/-!
A verification development for the `h5scripting` module: a shallow embedding
of its function-capsule mechanism — the Python value universe used for saved
default arguments, the literal codec (`repr` / `ast.literal_eval`), source
normalization, the capsule store inside an HDF5 file, and the sandboxed
invoker (`SavedFunction`) — together with theorems settling the
specification's claims against the code in `h5scripting.py`.
-/

namespace H5S

/-- Character constants used by the codec (written via code points so the
text stays readable in any context). -/
def squoteC : Char := Char.ofNat 39

def dquoteC : Char := Char.ofNat 34

def backslashC : Char := Char.ofNat 92

def lbraceC : Char := Char.ofNat 123

def rbraceC : Char := Char.ofNat 125

def newlineC : Char := Char.ofNat 10

def spaceC : Char := Char.ofNat 32

def commaC : Char := Char.ofNat 44

def colonC : Char := Char.ofNat 58

def lbrackC : Char := Char.ofNat 91

def rbrackC : Char := Char.ofNat 93

def minusC : Char := Char.ofNat 45

/-- Model of the Python values that occur as saved default arguments in
`h5scripting.py`: `None`, booleans, integers, strings, lists, dicts, and a
stand-in for an arbitrary non-literal object (identified by a numeric
identity, with the default `<object at N>`-style `repr`). -/
inductive PyVal where
  | none : PyVal
  | bool : Bool → PyVal
  | int : Int → PyVal
  | str : String → PyVal
  | list : List PyVal → PyVal
  | dict : List (PyVal × PyVal) → PyVal
  | obj : Nat → PyVal

mutual

/-- Structural equality on the modelled value universe: the behaviour of
Python `==` on the values compared by `h5scripting.py`'s capture-time
round-trip check (`ast.literal_eval(repr(v)) == v`). Two `obj` stand-ins
compare by identity; a literal never equals an `obj`. -/
def pyEq : PyVal → PyVal → Bool
  | .none, .none => true
  | .bool a, .bool b => a == b
  | .int a, .int b => a == b
  | .str a, .str b => a == b
  | .list a, .list b => pyEqList a b
  | .dict a, .dict b => pyEqPairs a b
  | .obj a, .obj b => a == b
  | _, _ => false

def pyEqList : List PyVal → List PyVal → Bool
  | [], [] => true
  | a :: as_, b :: bs => pyEq a b && pyEqList as_ bs
  | _, _ => false

def pyEqPairs : List (PyVal × PyVal) → List (PyVal × PyVal) → Bool
  | [], [] => true
  | (ka, va) :: as_, (kb, vb) :: bs => pyEq ka kb && pyEq va vb && pyEqPairs as_ bs
  | _, _ => false

end

/-- One character of a Python string `repr`, escaped for quote style `q`
(backslash, the quote character, newline, carriage return and tab are
escaped; other characters are rendered verbatim). -/
def pyEscapeChar (q : Char) (c : Char) : String :=
  if c = backslashC then String.mk [backslashC, backslashC]
  else if c = q then String.mk [backslashC, q]
  else if c = newlineC then String.mk [backslashC, Char.ofNat 110]
  else if c = Char.ofNat 13 then String.mk [backslashC, Char.ofNat 114]
  else if c = Char.ofNat 9 then String.mk [backslashC, Char.ofNat 116]
  else String.singleton c

/-- Python `repr` of a string: single-quoted, switching to double quotes
when the string contains a single quote but no double quote. -/
def pyReprStr (s : String) : String :=
  let q := if s.toList.contains squoteC && !(s.toList.contains dquoteC)
    then dquoteC else squoteC
  String.singleton q ++ String.join (s.toList.map (pyEscapeChar q)) ++ String.singleton q

mutual

/-- Models Python `repr` on the modelled value universe. This is the
`encode` half of the literal codec: `h5scripting.py` stores
`repr(args)` / `repr(kwargs)` as the `function_args` / `function_kwargs`
attributes. -/
def pyRepr : PyVal → String
  | .none => "None"
  | .bool true => "True"
  | .bool false => "False"
  | .int i => toString i
  | .str s => pyReprStr s
  | .list xs => "[" ++ String.intercalate ", " (pyReprList xs) ++ "]"
  | .dict ps =>
      String.singleton lbraceC ++ String.intercalate ", " (pyReprPairs ps) ++
        String.singleton rbraceC
  | .obj n => "<object at " ++ toString n ++ ">"

def pyReprList : List PyVal → List String
  | [] => []
  | x :: xs => pyRepr x :: pyReprList xs

def pyReprPairs : List (PyVal × PyVal) → List String
  | [] => []
  | (k, v) :: ps => (pyRepr k ++ ": " ++ pyRepr v) :: pyReprPairs ps

end

/-- Drop leading spaces from a character list. -/
def skipSpaces : List Char → List Char
  | c :: cs => if c = spaceC then skipSpaces cs else c :: cs
  | [] => []

/-- Consume an exact literal prefix, or fail. -/
def dropLit : List Char → List Char → Option (List Char)
  | [], cs => some cs
  | _ :: _, [] => Option.none
  | p :: ps, c :: cs => if c = p then dropLit ps cs else Option.none

/-- Split a leading run of decimal digits from the rest. -/
def takeDigits : List Char → (List Char × List Char)
  | [] => ([], [])
  | c :: cs =>
    if c.isDigit then
      let r := takeDigits cs
      (c :: r.1, r.2)
    else ([], c :: cs)

/-- Numeric value of a digit run. -/
def digitsVal (ds : List Char) : Nat :=
  ds.foldl (fun a c => a * 10 + (c.toNat - 48)) 0

/-- Parse the body of a quoted Python string literal (after the opening
quote `q`), handling the escapes produced by `pyEscapeChar`; returns the
decoded characters and the remainder after the closing quote. -/
def parseStrBody (q : Char) : List Char → Option (List Char × List Char)
  | [] => Option.none
  | c :: cs =>
    if c = q then some ([], cs)
    else if c = backslashC then
      match cs with
      | [] => Option.none
      | e :: cs2 =>
        let dec : Option Char :=
          if e = backslashC then some backslashC
          else if e = squoteC then some squoteC
          else if e = dquoteC then some dquoteC
          else if e = Char.ofNat 110 then some newlineC
          else if e = Char.ofNat 114 then some (Char.ofNat 13)
          else if e = Char.ofNat 116 then some (Char.ofNat 9)
          else Option.none
        match dec with
        | Option.none => Option.none
        | some d =>
          match parseStrBody q cs2 with
          | Option.none => Option.none
          | some (body, rest) => some (d :: body, rest)
    else
      match parseStrBody q cs with
      | Option.none => Option.none
      | some (body, rest) => some (c :: body, rest)

mutual

/-- Fuel-indexed recursive-descent parser for Python literal expressions —
the working half of the model of `ast.literal_eval`, covering the grammar
`repr` produces on the modelled universe (`None`, `True`, `False`,
integers, quoted strings, lists, dicts). Anything else — in particular the
`<object at N>` rendering of a non-literal object — fails. -/
def parsePyVal : Nat → List Char → Option (PyVal × List Char)
  | 0, _ => Option.none
  | Nat.succ fuel, cs0 =>
    let cs := skipSpaces cs0
    match dropLit ("None".toList) cs with
    | some r => some (PyVal.none, r)
    | Option.none =>
    match dropLit ("True".toList) cs with
    | some r => some (PyVal.bool true, r)
    | Option.none =>
    match dropLit ("False".toList) cs with
    | some r => some (PyVal.bool false, r)
    | Option.none =>
    match cs with
    | [] => Option.none
    | c :: rest =>
      if c = squoteC ∨ c = dquoteC then
        match parseStrBody c rest with
        | some (body, r) => some (PyVal.str (String.mk body), r)
        | Option.none => Option.none
      else if c = lbrackC then
        let rest2 := skipSpaces rest
        match rest2 with
        | d :: r2 =>
          if d = rbrackC then some (PyVal.list [], r2)
          else
            match parseElems fuel rest2 with
            | some (vs, r) => some (PyVal.list vs, r)
            | Option.none => Option.none
        | [] => Option.none
      else if c = lbraceC then
        let rest2 := skipSpaces rest
        match rest2 with
        | d :: r2 =>
          if d = rbraceC then some (PyVal.dict [], r2)
          else
            match parsePairs fuel rest2 with
            | some (ps, r) => some (PyVal.dict ps, r)
            | Option.none => Option.none
        | [] => Option.none
      else if c = minusC ∨ c.isDigit then
        let neg := c = minusC
        let digs := if neg then rest else cs
        match takeDigits digs with
        | ([], _) => Option.none
        | (d :: ds, r) =>
          let n : Int := Int.ofNat (digitsVal (d :: ds))
          some (PyVal.int (if neg then -n else n), r)
      else Option.none

/-- Parse one or more comma-separated elements followed by `]`. -/
def parseElems : Nat → List Char → Option (List PyVal × List Char)
  | 0, _ => Option.none
  | Nat.succ fuel, cs =>
    match parsePyVal fuel cs with
    | Option.none => Option.none
    | some (v, cs2) =>
      match skipSpaces cs2 with
      | [] => Option.none
      | c :: rest =>
        if c = commaC then
          match parseElems fuel rest with
          | some (vs, r) => some (v :: vs, r)
          | Option.none => Option.none
        else if c = rbrackC then some ([v], rest)
        else Option.none

/-- Parse one or more comma-separated `key: value` pairs followed by the
closing brace. -/
def parsePairs : Nat → List Char → Option (List (PyVal × PyVal) × List Char)
  | 0, _ => Option.none
  | Nat.succ fuel, cs =>
    match parsePyVal fuel cs with
    | Option.none => Option.none
    | some (k, cs2) =>
      match skipSpaces cs2 with
      | [] => Option.none
      | c :: rest =>
        if c = colonC then
          match parsePyVal fuel rest with
          | Option.none => Option.none
          | some (v, cs3) =>
            match skipSpaces cs3 with
            | [] => Option.none
            | d :: rest3 =>
              if d = commaC then
                match parsePairs fuel rest3 with
                | some (ps, r) => some ((k, v) :: ps, r)
                | Option.none => Option.none
              else if d = rbraceC then some ([(k, v)], rest3)
              else Option.none
        else Option.none

end

/-- Models `ast.literal_eval` as used by `h5scripting.py`: parse a full
literal expression, failing (`Option.none`, standing for the exception
`ast.literal_eval` raises) when the text is not a literal. -/
def literal_eval (s : String) : Option PyVal :=
  let cs := s.toList
  match parsePyVal (2 * cs.length + 2) cs with
  | some (v, rest) => if skipSpaces rest = [] then some v else Option.none
  | Option.none => Option.none

/-- The error universe of the embedding. Constructors are named after the
specification's error taxonomy; each doc line states the concrete Python
exception in `h5scripting.py` it models. -/
inductive H5Err where
  /-- `NameError` raised when the name `x` resolves nowhere. -/
  | nameError (x : String)
  /-- `TypeError` from argument binding when a Python function is called. -/
  | typeErrorCall
  /-- The `TypeError` raised by `SavedFunction.__call__` when positional
  arguments are supplied (the spec's `ArgumentOverrideError`). -/
  | argumentOverrideError
  /-- The capture-time literal-safety failure in
  `attached_function.__call__`: the explicit `ValueError` when the parsed
  value is not `==` to the original, or the exception `ast.literal_eval`
  itself raises on unparseable text (the spec's `NonLiteralValueError`). -/
  | nonLiteralValueError
  /-- `KeyError` from `f[groupname]` or `group[name]` in
  `get_saved_function` (the spec's `SlotNotFoundError`). -/
  | slotNotFoundError
  /-- The `ValueError` raised by `get_saved_function` when the
  `__h5scripting_function` marker attribute is absent or falsy (the spec's
  `NotACapsuleError`). -/
  | notACapsuleError
  /-- Build-time failure in `SavedFunction.__init__`: the exception
  propagating out of `exec_in_namespace` on the stored source, or the
  `KeyError` when `function_name` is not bound afterwards (the spec's
  `ReconstructionError`). -/
  | reconstructionError
  /-- Exceptions from attribute access or `ast.literal_eval` on a
  malformed stored record; unreachable for records the library itself
  writes. -/
  | decodeError
  deriving Repr, DecidableEq

/-- An expression of a captured function's body, as far as the claims need
it: a literal constant or a reference to a name. -/
inductive PyExpr where
  | lit (v : PyVal)
  | name (x : String)

/-- A statement of a captured function's body: an assignment to a local
name, or a return. -/
inductive PyStmt where
  | assign (x : String) (e : PyExpr)
  | ret (e : PyExpr)

/-- A Python function object as far as the embedding needs it: its
`__name__`, its parameter list, and its body. (The model's functions
declare no parameter defaults; the library stores call defaults in the
record instead.) -/
structure PyFunc where
  name : String
  params : List String
  body : List PyStmt

/-- A value bound in a namespace: a plain value, a function object, a
built-in, or the argument tuple / keyword dict bound by `custom_call`. -/
inductive NsVal where
  | pv (v : PyVal)
  | func (f : PyFunc)
  | builtin (x : String)
  | argsTuple (l : List PyVal)
  | kwargsDict (l : List (String × PyVal))

/-- A Python namespace: a dict from names to values, in insertion order. -/
abbrev Namespace := List (String × NsVal)

/-- Names resolvable as language built-ins (a representative selection;
ambient in every namespace via `__builtins__`). -/
def builtinNames : List String :=
  ["len", "print", "abs", "min", "max", "range", "sum", "sorted", "repr",
   "id", "zip", "map", "filter", "enumerate", "open", "object", "int",
   "str", "float", "bool", "list", "dict", "tuple", "set", "type",
   "isinstance", "getattr", "setattr", "Exception", "ValueError",
   "TypeError", "KeyError", "NameError", "__import__"]

/-- Python dict lookup on an association list (keys unique in a real
dict; the first match is taken). -/
def dlookup {α : Type} (k : String) : List (String × α) → Option α
  | [] => Option.none
  | (k0, v) :: rest => if k0 = k then some v else dlookup k rest

/-- Set a key in a dict, overwriting the value of the first existing entry
in place, else appending (Python dict assignment). -/
def dictSet {α : Type} (d : List (String × α)) (k : String) (v : α) : List (String × α) :=
  match d with
  | [] => [(k, v)]
  | (k0, v0) :: rest => if k0 = k then (k0, v) :: rest else (k0, v0) :: dictSet rest k v

/-- Models `dict.copy()`; the model's dicts are immutable values, so the
copy is the value itself — the point in `SavedFunction.__call__` is that
the subsequent update does not touch `self.function_kwargs`. -/
def dictCopy {α : Type} (d : List (String × α)) : List (String × α) := d

/-- Models `dict.update`: entries of `ks` applied left to right. -/
def dictUpdate {α : Type} (d ks : List (String × α)) : List (String × α) :=
  ks.foldl (fun acc kv => dictSet acc kv.1 kv.2) d

/-- First-of-two on options: the first lookup result if present, else the
second. -/
def optOr {α : Type} (a b : Option α) : Option α :=
  match a with
  | some v => some v
  | Option.none => b

/-- CPython name resolution inside a function body: local scope, then the
function's globals, then built-ins; otherwise `NameError`. -/
def lookupName (locals globals : Namespace) (x : String) : Except H5Err NsVal :=
  match dlookup x locals with
  | some v => Except.ok v
  | Option.none =>
    match dlookup x globals with
    | some v => Except.ok v
    | Option.none =>
      if x ∈ builtinNames then Except.ok (NsVal.builtin x)
      else Except.error (H5Err.nameError x)

/-- Evaluate an expression under a local and a global namespace. -/
def evalExpr (e : PyExpr) (locals globals : Namespace) : Except H5Err NsVal :=
  match e with
  | .lit v => Except.ok (NsVal.pv v)
  | .name x => lookupName locals globals x

/-- Run a function body: assignments extend the local namespace, `return`
yields the value, falling off the end returns `None`. -/
def execBody (stmts : List PyStmt) (locals globals : Namespace) : Except H5Err NsVal :=
  match stmts with
  | [] => Except.ok (NsVal.pv PyVal.none)
  | .assign x e :: rest => do
      let v ← evalExpr e locals globals
      execBody rest (dictSet locals x v) globals
  | .ret e :: _ => evalExpr e locals globals

/-- Python argument binding for a call `f(*posArgs, **kwargs)`:
positional arguments bind the leading parameters, keyword arguments bind
the rest; too many positionals, a keyword for a positionally-bound
parameter, an unknown keyword, or a missing parameter are a `TypeError`. -/
def bindParams (params : List String) (posArgs : List PyVal)
    (kwargs : List (String × PyVal)) : Except H5Err Namespace :=
  if params.length < posArgs.length then Except.error H5Err.typeErrorCall
  else
    let posBound := params.take posArgs.length
    if kwargs.any (fun kv => posBound.contains kv.1) then Except.error H5Err.typeErrorCall
    else if kwargs.any (fun kv => !(params.contains kv.1)) then Except.error H5Err.typeErrorCall
    else
      let restParams := params.drop posArgs.length
      if restParams.any (fun p => (dlookup p kwargs).isNone) then Except.error H5Err.typeErrorCall
      else
        Except.ok ((posBound.zip (posArgs.map NsVal.pv)) ++
          restParams.filterMap (fun p => (dlookup p kwargs).map (fun v => (p, NsVal.pv v))))

/-- Call a function object: bind the arguments, then run the body with the
function's globals (`f.__globals__`). -/
def runFunction (f : PyFunc) (globals : Namespace) (posArgs : List PyVal)
    (kwargs : List (String × PyVal)) : Except H5Err NsVal := do
  let locals ← bindParams f.params posArgs kwargs
  execBody f.body locals globals

/-- The executable semantics carried alongside stored source text (the
embedding cannot run strings): `defFun f` is a source text whose execution
defines the single function `f`; `raisesExc` is a source text whose
execution itself raises (a syntax or runtime error in the captured
source). -/
inductive SourceCode where
  | defFun (f : PyFunc)
  | raisesExc

/-- Models `exec_in_namespace(function_source, namespace)` on a stored
source: executing `defFun f` binds `f.name` in the namespace; executing a
raising source propagates its exception, abstracted as the spec's
`ReconstructionError` since the library only runs stored source while
reconstructing. -/
def execSource (code : SourceCode) (ns : Namespace) : Except H5Err Namespace :=
  match code with
  | .defFun f => Except.ok (dictSet ns f.name (NsVal.func f))
  | .raisesExc => Except.error H5Err.reconstructionError

/-- An HDF5 attribute value as used by the library: a string or a bool. -/
inductive AttrVal where
  | str (s : String)
  | bool (b : Bool)
  deriving Repr, DecidableEq

/-- Python truthiness of an attribute value, as tested by
`not dataset.attrs['__h5scripting_function']`. -/
def attrTruthy : AttrVal → Bool
  | .str s => s != ""
  | .bool b => b

/-- The capsule-marker test of `get_saved_function`: the
`__h5scripting_function` attribute is present and truthy
(`'__h5scripting_function' in dataset.attrs and
dataset.attrs['__h5scripting_function']`). -/
def isCapsule (attrs : List (String × AttrVal)) : Bool :=
  match dlookup "__h5scripting_function" attrs with
  | some a => attrTruthy a
  | Option.none => false

/-- An HDF5 dataset: its payload (`dataset.value`) — here the normalized
source text paired with its executable semantics — and its attributes in
creation order. -/
structure Dataset where
  data : String
  code : SourceCode
  attrs : List (String × AttrVal)

/-- An HDF5 group: named datasets, in insertion order (names unique in a
real file). -/
abbrev Group := List (String × Dataset)

/-- The content of one HDF5 file: named groups, in insertion order. -/
abbrev Store := List (String × Group)

/-- The state of a `SavedFunction` object: the fields its `__init__`
assigns. `sandbox_globals` is the namespace the stored source was exec'd
into — the reconstructed function's `__globals__`. -/
structure SavedFunction where
  _function : PyFunc
  sandbox_globals : Namespace
  function_docstring : String
  function_signature : String
  function_source : String
  function_name : String
  function_args : List PyVal
  function_kwargs : List (String × PyVal)
  h5_filename : String

/-- Convert the pairs of a parsed keyword dict to string-keyed form. The
keys of a dict the library itself wrote are always strings; a non-string
key in a hand-crafted record would fail in Python only later, at `**`
unpacking — the model rejects it while decoding. -/
def strKeyed : List (PyVal × PyVal) → Except H5Err (List (String × PyVal))
  | [] => Except.ok []
  | (.str k, v) :: ps => do
      let rest ← strKeyed ps
      Except.ok ((k, v) :: rest)
  | _ => Except.error H5Err.decodeError

/-- Models `SavedFunction.__init__(dataset)`. The `filename` argument
stands for `os.path.abspath(dataset.file.filename)`, the path of the open
file holding the dataset (path canonicalization is environmental and
modelled as the path itself). It reads the payload and the attributes,
decodes `function_args` / `function_kwargs` with `ast.literal_eval`, execs
the stored source into an empty namespace, and looks the function name up
in the result. -/
def SavedFunction.init (filename : String) (ds : Dataset) : Except H5Err SavedFunction := do
  let function_source := ds.data
  let function_name ← match dlookup "function_name" ds.attrs with
    | some (.str s) => Except.ok s
    | _ => Except.error H5Err.decodeError
  let function_docstring ← match dlookup "function_docstring" ds.attrs with
    | some (.str s) => Except.ok s
    | _ => Except.error H5Err.decodeError
  let function_signature ← match dlookup "function_signature" ds.attrs with
    | some (.str s) => Except.ok s
    | _ => Except.error H5Err.decodeError
  let argsText ← match dlookup "function_args" ds.attrs with
    | some (.str s) => Except.ok s
    | _ => Except.error H5Err.decodeError
  let kwargsText ← match dlookup "function_kwargs" ds.attrs with
    | some (.str s) => Except.ok s
    | _ => Except.error H5Err.decodeError
  let function_args ← match literal_eval argsText with
    | some (.list l) => Except.ok l
    | _ => Except.error H5Err.decodeError
  let kwPairs ← match literal_eval kwargsText with
    | some (.dict ps) => Except.ok ps
    | _ => Except.error H5Err.decodeError
  let function_kwargs ← strKeyed kwPairs
  let sandbox_namespace : Namespace := []
  let sandbox_namespace ← execSource ds.code sandbox_namespace
  let function ← match dlookup function_name sandbox_namespace with
    | some (NsVal.func f) => Except.ok f
    | _ => Except.error H5Err.reconstructionError
  Except.ok
    { _function := function,
      sandbox_globals := sandbox_namespace,
      function_docstring := function_docstring,
      function_signature := function_signature,
      function_source := function_source,
      function_name := function_name,
      function_args := function_args,
      function_kwargs := function_kwargs,
      h5_filename := filename }

/-- The fresh per-call namespace `SavedFunction.custom_call` builds:
exactly the four mangled bindings. -/
def customCallNamespace (sf : SavedFunction) (args : List PyVal)
    (kwargs : List (String × PyVal)) : Namespace :=
  [("__h5s_filename", NsVal.pv (PyVal.str sf.h5_filename)),
   ("__h5s_function", NsVal.func sf._function),
   ("__h5s_args", NsVal.argsTuple args),
   ("__h5s_kwargs", NsVal.kwargsDict kwargs)]

/-- Models executing the fixed line
`__h5s_result = __h5s_function(__h5s_filename, *__h5s_args, **__h5s_kwargs)`
with `exec` in a namespace: each of the four names is looked up in that
namespace (module-level `exec`: globals and locals coincide), the call is
evaluated, and the result is bound to `__h5s_result`. `funcGlobals` is the
`__globals__` of the function object being applied (the model's function
values do not carry their globals; the only application site passes the
`sandbox_globals` captured at reconstruction, exactly as Python's function
object does). -/
def execInvocationLine (funcGlobals : Namespace) (ns : Namespace) :
    Except H5Err Namespace := do
  let fnv ← lookupName ns ns "__h5s_function"
  let filev ← lookupName ns ns "__h5s_filename"
  let argsv ← lookupName ns ns "__h5s_args"
  let kwargsv ← lookupName ns ns "__h5s_kwargs"
  match fnv, filev, argsv, kwargsv with
  | NsVal.func f, NsVal.pv filearg, NsVal.argsTuple args, NsVal.kwargsDict kwargs => do
      let result ← runFunction f funcGlobals (filearg :: args) kwargs
      Except.ok (dictSet ns "__h5s_result" result)
  | _, _, _, _ => Except.error H5Err.typeErrorCall

/-- Models `SavedFunction.custom_call(*args, **kwargs)`: build the fresh
four-binding namespace, exec the fixed invocation line in it, and read back
`__h5s_result`. -/
def SavedFunction.custom_call (sf : SavedFunction) (args : List PyVal)
    (kwargs : List (String × PyVal)) : Except H5Err NsVal := do
  let sandbox_namespace := customCallNamespace sf args kwargs
  let sandbox_namespace ← execInvocationLine sf.sandbox_globals sandbox_namespace
  match dlookup "__h5s_result" sandbox_namespace with
  | some r => Except.ok r
  | Option.none => Except.error H5Err.decodeError

/-- Models `SavedFunction.__call__(*args, **kwargs)`. The outcome is paired
with the post-call object state: the method merges call-time keyword
arguments into a copy of `self.function_kwargs`, so the object comes back
unchanged. Positional arguments raise the `TypeError` the spec names
`ArgumentOverrideError`, before anything is executed. -/
def SavedFunction.call (sf : SavedFunction) (args : List PyVal)
    (kwargs : List (String × PyVal)) : Except H5Err NsVal × SavedFunction :=
  match args with
  | _ :: _ => (Except.error H5Err.argumentOverrideError, sf)
  | [] =>
    let sandbox_kwargs := dictCopy sf.function_kwargs
    let sandbox_kwargs := dictUpdate sandbox_kwargs kwargs
    (sf.custom_call sf.function_args sandbox_kwargs, sf)

/-- The configuration held by the `attached_function` decorator object
(the arguments of its `__init__`, with the same defaults). -/
structure AttachConfig where
  filename : String
  name : Option String := Option.none
  docstring : Option String := Option.none
  groupname : String := "saved_functions"
  args : Option (List PyVal) := Option.none
  kwargs : Option (List (String × PyVal)) := Option.none

/-- The decorated Python function as the decorator sees it: the function
object (`__name__`, parameters, body), its `__doc__`, and the raw text
`inspect.getsource` returns for it. -/
structure CapturedFunction where
  func : PyFunc
  doc : Option String := Option.none
  rawSource : String

/-- Count of leading space characters of a line
(`len(line) - len(line.lstrip(' '))`). -/
def leadingSpaces (s : String) : Nat :=
  (s.toList.takeWhile (fun c => c = spaceC)).length

/-- Python string slicing `s[n:]` (character-based, like Python). -/
def pyDrop (s : String) (n : Nat) : String :=
  String.mk (s.toList.drop n)

/-- Python `str.startswith`. -/
def pyStartsWith (s pre : String) : Bool :=
  pre.toList.isPrefixOf s.toList

/-- Accumulate characters into lines, splitting at newlines. A chunk left
open at the end of input is a final line; a chunk closed by the end of
input right after a newline is not (`str.splitlines` yields no phantom
final empty line). -/
def pySplitlinesAux (cur : List Char) : List Char → List String
  | [] => if cur.isEmpty then [] else [String.mk cur.reverse]
  | c :: cs =>
    if c = newlineC then String.mk cur.reverse :: pySplitlinesAux [] cs
    else pySplitlinesAux (c :: cur) cs

/-- Models `str.splitlines` on newline-separated text (the embedding's
sources use the newline character as the only line break): a trailing
newline produces no final empty line, and the empty string has no lines. -/
def pySplitlines (s : String) : List String :=
  pySplitlinesAux [] s.toList

/-- Source normalization exactly as in `attached_function.__call__`
(lines 181–187): split into lines, compute the minimum leading-space count
across all lines, delete the first line when — after removing that
indentation — it starts with `@` (the decorator), and rejoin the remaining
lines with the indentation removed. `Option.none` models the `ValueError`
Python's `min` raises on an empty sequence (unreachable for real extracted
source). -/
def normalizeSource (src : String) : Option String :=
  match pySplitlines src with
  | [] => Option.none
  | l0 :: rest =>
    let indentation := rest.foldl (fun m ln => min m (leadingSpaces ln)) (leadingSpaces l0)
    let function_lines := if pyStartsWith (pyDrop l0 indentation) "@" then rest else l0 :: rest
    some (String.intercalate (String.singleton newlineC)
      (function_lines.map (fun ln => pyDrop ln indentation)))

/-- A rendering of `function_name + inspect.formatargspec(*argspec)` for
the modelled functions (which declare no parameter defaults):
`name(p1, p2, ...)`. Advisory metadata only (spec §3). -/
def formatSignature (f : PyFunc) : String :=
  f.name ++ "(" ++ String.intercalate ", " f.params ++ ")"

/-- The dict view of a keyword-argument mapping, as Python passes
`self.kwargs` around: string keys become `str` values. -/
def kwargsAsDict (kwargs : List (String × PyVal)) : PyVal :=
  PyVal.dict (kwargs.map (fun kv => (PyVal.str kv.1, kv.2)))

/-- The capture-time round-trip check `ast.literal_eval(text) == v` on the
encoded text of a value: false both when the parse fails (the exception
`literal_eval` raises at that line) and when the parsed value is not equal
to the original. -/
def literalRoundTripOK (text : String) (v : PyVal) : Bool :=
  match literal_eval text with
  | some w => pyEq w v
  | Option.none => false

/-- The capture stage of `attached_function.__call__` (lines 139–187),
before any file I/O: resolve the slot name, assemble the docstring, run
the literal round-trip check on `args` and then `kwargs` (`repr` followed
by `ast.literal_eval`, failing with the spec's `NonLiteralValueError` when
the parse fails or the parsed value is not `==` to the original), format
the signature, and normalize the extracted source. Returns the slot name
and the dataset that the I/O stage will write. -/
def captureRecord (cfg : AttachConfig) (capt : CapturedFunction) :
    Except H5Err (String × Dataset) := do
  let name := cfg.name.getD capt.func.name
  let function_name := capt.func.name
  let function_docstring :=
    (match cfg.docstring with
     | some d => String.singleton newlineC ++ "----- DATA DOCSTRING -----" ++
         String.singleton newlineC ++ d
     | Option.none => "") ++
    (match capt.doc with
     | some d => String.singleton newlineC ++ "----- FUNCTION DOCSTRING -----" ++
         String.singleton newlineC ++ d
     | Option.none => "")
  let args := cfg.args.getD []
  let function_args := pyRepr (PyVal.list args)
  let _ ← if literalRoundTripOK function_args (PyVal.list args) then Except.ok ()
      else Except.error H5Err.nonLiteralValueError
  let kwargs := cfg.kwargs.getD []
  let function_kwargs := pyRepr (kwargsAsDict kwargs)
  let _ ← if literalRoundTripOK function_kwargs (kwargsAsDict kwargs) then Except.ok ()
      else Except.error H5Err.nonLiteralValueError
  let function_signature := formatSignature capt.func
  let function_source ← match normalizeSource capt.rawSource with
    | some s => Except.ok s
    | Option.none => Except.error H5Err.decodeError
  Except.ok (name,
    { data := function_source,
      code := SourceCode.defFun capt.func,
      attrs := [("function_name", AttrVal.str function_name),
                ("function_docstring", AttrVal.str function_docstring),
                ("function_signature", AttrVal.str function_signature),
                ("function_args", AttrVal.str function_args),
                ("function_kwargs", AttrVal.str function_kwargs),
                ("__h5scripting_function", AttrVal.bool true)] })

/-- `f.require_group(groupname)`: the existing group, or a fresh empty
one. -/
def requireGroup (store : Store) (g : String) : Group :=
  match dlookup g store with
  | some grp => grp
  | Option.none => []

/-- Write a group back under its name, replacing the existing entry in
place or appending a new one (group names are unique in a real file). -/
def storeSet (store : Store) (g : String) (grp : Group) : Store :=
  dictSet store g grp

/-- `del group[name]` with its `except KeyError: pass`: remove the slot if
present (slot names are unique in a real file; the model removes every
entry of that name). -/
def groupDel (grp : Group) (n : String) : Group :=
  grp.filter (fun kv => kv.1 != n)

/-- Models `attached_function.__call__` end to end: the capture stage,
then — inside `with h5py.File(self.filename)` — `require_group`, the
delete-if-present of the slot, `create_dataset` with the attributes, and
finally `SavedFunction(dataset)` built from the fresh dataset. The result
pairs the post-call store with the outcome; a capture-stage failure leaves
the store untouched. -/
def attach (cfg : AttachConfig) (capt : CapturedFunction) (store : Store) :
    Store × Except H5Err SavedFunction :=
  match captureRecord cfg capt with
  | Except.error e => (store, Except.error e)
  | Except.ok (name, ds) =>
    let group := requireGroup store cfg.groupname
    let group := groupDel group name
    let group := group ++ [(name, ds)]
    let store2 := storeSet store cfg.groupname group
    (store2, SavedFunction.init cfg.filename ds)

/-- Models `get_saved_function(filename, name, groupname)`: `f[groupname]`
and `group[name]` raise `KeyError` (the spec's `SlotNotFoundError`) when
absent; a dataset without a true-valued `__h5scripting_function` attribute
raises `ValueError` (the spec's `NotACapsuleError`); otherwise the
`SavedFunction` is built from the dataset. `store` is the content of the
file at `filename`. -/
def get_saved_function (filename : String) (store : Store) (name : String)
    (groupname : String := "saved_functions") : Except H5Err SavedFunction := do
  let group ← match dlookup groupname store with
    | some g => Except.ok g
    | Option.none => Except.error H5Err.slotNotFoundError
  let ds ← match dlookup name group with
    | some d => Except.ok d
    | Option.none => Except.error H5Err.slotNotFoundError
  let _ ← if isCapsule ds.attrs then Except.ok ()
      else Except.error H5Err.notACapsuleError
  SavedFunction.init filename ds

/-! ### Concrete instances used by witnesses and counterexamples -/

/-- A representative reconstructed function: the example's `plot_func`,
returning its `title` argument. -/
def wFunc : PyFunc :=
  { name := "plot_func",
    params := ["h5_filename", "title", "xlabel"],
    body := [PyStmt.ret (PyExpr.name "title")] }

/-- A representative built `SavedFunction` wrapping `wFunc`, with one
stored positional default and one stored keyword default. -/
def wSF : SavedFunction :=
  { _function := wFunc,
    sandbox_globals := [("plot_func", NsVal.func wFunc)],
    function_docstring := "",
    function_signature := "plot_func(h5_filename, title, xlabel)",
    function_source := "def plot_func(h5_filename, title, xlabel):",
    function_name := "plot_func",
    function_args := [PyVal.str "hello"],
    function_kwargs := [("xlabel", PyVal.str "xdefault")],
    h5_filename := "test.h5" }

/-- A captured function whose body returns the function's own name — the
reconstruction binds that name in the sandbox namespace, so the reference
resolves at call time even though it is neither a parameter nor a
built-in. -/
def c1func : PyFunc :=
  { name := "f", params := ["h5_filename"], body := [PyStmt.ret (PyExpr.name "f")] }

def c1cfg : AttachConfig := { filename := "test.h5" }

def c1capt : CapturedFunction :=
  { func := c1func,
    rawSource := "@attach_function(test_h5)\ndef f(h5_filename):\n    return f\n" }

/-- The `SavedFunction` that `attach c1cfg c1capt []` builds. -/
def c1sf : SavedFunction :=
  { _function := c1func,
    sandbox_globals := [("f", NsVal.func c1func)],
    function_docstring := "",
    function_signature := "f(h5_filename)",
    function_source := "def f(h5_filename):\n    return f",
    function_name := "f",
    function_args := [],
    function_kwargs := [],
    h5_filename := "test.h5" }

/-- Extracted source of a decorated nested function: decorator line plus a
4-space base indentation. -/
def c4src : String :=
  "    @attach_function(fn)\n    def g(x):\n        return x\n"

/-- A capture configuration whose positional defaults contain a
non-literal object. -/
def c5cfg : AttachConfig := { filename := "t.h5", args := some [PyVal.obj 0] }

def c6func : PyFunc :=
  { name := "f", params := ["h5_filename"], body := [PyStmt.ret (PyExpr.lit PyVal.none)] }

def c6cfg : AttachConfig := { filename := "t.h5" }

def c6capt : CapturedFunction :=
  { func := c6func, rawSource := "def f(h5_filename):\n    return None\n" }

/-- The dataset `captureRecord c6cfg c6capt` produces. -/
def c6ds : Dataset :=
  { data := "def f(h5_filename):\n    return None",
    code := SourceCode.defFun c6func,
    attrs := [("function_name", AttrVal.str "f"),
              ("function_docstring", AttrVal.str ""),
              ("function_signature", AttrVal.str "f(h5_filename)"),
              ("function_args", AttrVal.str "[]"),
              ("function_kwargs", AttrVal.str "\x7b\x7d"),
              ("__h5scripting_function", AttrVal.bool true)] }

/-- The `SavedFunction` that `SavedFunction.init "t.h5" c6ds` builds. -/
def c6sf : SavedFunction :=
  { _function := c6func,
    sandbox_globals := [("f", NsVal.func c6func)],
    function_docstring := "",
    function_signature := "f(h5_filename)",
    function_source := "def f(h5_filename):\n    return None",
    function_name := "f",
    function_args := [],
    function_kwargs := [],
    h5_filename := "t.h5" }

/-- A well-formed record whose stored source raises when executed. -/
def c8ds : Dataset := { c6ds with code := SourceCode.raisesExc }

/-- A store with one capsule slot under the default group, and one plain
dataset (marker absent) beside it. -/
def c9plain : Dataset :=
  { data := "data", code := SourceCode.raisesExc, attrs := [] }

def c9store : Store :=
  [("saved_functions", [("f", c6ds), ("plain", c9plain)])]

end H5S

namespace H5S

/-! ### Helper lemmas -/

theorem dlookup_dictSet_self {α : Type} (d : List (String × α)) (k : String) (v : α) :
    dlookup k (dictSet d k v) = some v := by
  induction d with
  | nil => simp [dictSet, dlookup]
  | cons kv rest ih =>
    obtain ⟨k0, v0⟩ := kv
    by_cases h : k0 = k
    · simp [dictSet, h, dlookup]
    · simp [dictSet, h, dlookup, ih]

theorem dlookup_dictSet_ne {α : Type} (d : List (String × α)) (k k2 : String) (v : α)
    (h : k2 ≠ k) : dlookup k2 (dictSet d k v) = dlookup k2 d := by
  induction d with
  | nil => simp [dictSet, dlookup, Ne.symm h]
  | cons kv rest ih =>
    obtain ⟨k0, v0⟩ := kv
    by_cases h0 : k0 = k
    · subst h0
      simp [dictSet, dlookup, Ne.symm h]
    · simp [dictSet, h0, dlookup, ih]

theorem dlookup_not_mem {α : Type} (d : List (String × α)) (k : String)
    (h : k ∉ d.map Prod.fst) : dlookup k d = Option.none := by
  induction d with
  | nil => simp [dlookup]
  | cons kv rest ih =>
    obtain ⟨k0, v0⟩ := kv
    simp only [List.map, List.mem_cons] at h
    push_neg at h
    simp [dlookup, Ne.symm h.1, ih h.2]

/-- The effect of `dict.update` on lookups, for an update mapping with
distinct keys (Python call-time keyword arguments always have distinct
keys): the update's value wins, every other key keeps its value. -/
theorem dlookup_dictUpdate {α : Type} (ks : List (String × α)) (d : List (String × α))
    (k : String) (hnd : (ks.map Prod.fst).Nodup) :
    dlookup k (dictUpdate d ks) = optOr (dlookup k ks) (dlookup k d) := by
  induction ks generalizing d with
  | nil => simp [dictUpdate, dlookup, optOr]
  | cons kv rest ih =>
    obtain ⟨k0, v0⟩ := kv
    simp only [List.map, List.nodup_cons] at hnd
    have hstep : dictUpdate d ((k0, v0) :: rest) = dictUpdate (dictSet d k0 v0) rest := rfl
    rw [hstep, ih (dictSet d k0 v0) hnd.2]
    by_cases h : k = k0
    · subst h
      have hrest : dlookup k rest = Option.none := dlookup_not_mem rest k hnd.1
      simp [hrest, dlookup, dlookup_dictSet_self, optOr]
    · have hset := dlookup_dictSet_ne d k0 k v0 h
      simp [dlookup, Ne.symm h, hset, optOr]

/-- `custom_call` is plain function application: the plumbing through the
fresh four-binding namespace and the fixed exec'd line delivers exactly the
stored file path followed by the call-time positional arguments, and the
call-time keyword arguments, to the reconstructed function. -/
theorem custom_call_eq (sf : SavedFunction) (args : List PyVal)
    (kwargs : List (String × PyVal)) :
    sf.custom_call args kwargs =
      runFunction sf._function sf.sandbox_globals
        (PyVal.str sf.h5_filename :: args) kwargs := by
  cases h : runFunction sf._function sf.sandbox_globals (PyVal.str sf.h5_filename :: args) kwargs with
  | ok v =>
    simp [SavedFunction.custom_call, execInvocationLine, customCallNamespace,
      lookupName, dlookup, dictSet, h, bind, Except.bind]
  | error e =>
    simp [SavedFunction.custom_call, execInvocationLine, customCallNamespace,
      lookupName, dlookup, dictSet, h, bind, Except.bind]

/-! ### Claim theorems -/

/-- Claim C2: for every `SavedFunction` and every keyword-only call, the
keyword arguments passed to the reconstructed callable are the stored
`function_kwargs` overlaid with the call-time keyword arguments (call-time
values winning on key collision, all other stored defaults remaining in
effect), and the call leaves the stored default mapping unmodified (the
post-call object state equals the pre-call state, because `__call__`
updates only a copy). -/
theorem C2_kwarg_resolution (sf : SavedFunction) (ks : List (String × PyVal))
    (hnd : (ks.map Prod.fst).Nodup) :
    (sf.call [] ks).1 =
      runFunction sf._function sf.sandbox_globals
        (PyVal.str sf.h5_filename :: sf.function_args)
        (dictUpdate sf.function_kwargs ks) ∧
    (∀ k, dlookup k (dictUpdate sf.function_kwargs ks) =
      optOr (dlookup k ks) (dlookup k sf.function_kwargs)) ∧
    (sf.call [] ks).2 = sf := by
  refine ⟨?_, fun k => ?_, rfl⟩
  · show sf.custom_call sf.function_args (dictUpdate (dictCopy sf.function_kwargs) ks) = _
    rw [dictCopy, custom_call_eq]
  · exact dlookup_dictUpdate ks sf.function_kwargs k hnd

/-- Claim C2 witness: a concrete keyword-only call on `wSF` overriding the
stored `xlabel` default. -/
theorem C2_kwarg_resolution_witness :
    dlookup "xlabel" (dictUpdate wSF.function_kwargs [("xlabel", PyVal.str "custom")]) =
      some (PyVal.str "custom") ∧
    (wSF.call [] [("xlabel", PyVal.str "custom")]).2 = wSF := by
  have h := C2_kwarg_resolution wSF [("xlabel", PyVal.str "custom")] (by decide)
  exact ⟨(h.2.1 "xlabel").trans rfl, h.2.2⟩

/-- Claim C3: calling a `SavedFunction` with one or more positional
arguments fails with the spec's `ArgumentOverrideError` (the `TypeError`
raised at the top of `__call__`), for every stored default-argument list,
and the failure does not involve the captured source (the error is the
call's entire outcome, whatever `_function` is); calling with no
positional arguments passes exactly the stored `function_args` after the
injected file-path argument. -/
theorem C3_positional_override (sf : SavedFunction) (args : List PyVal)
    (kwargs : List (String × PyVal)) (h : args ≠ []) :
    (sf.call args kwargs).1 = Except.error H5Err.argumentOverrideError ∧
    (sf.call [] kwargs).1 =
      runFunction sf._function sf.sandbox_globals
        (PyVal.str sf.h5_filename :: sf.function_args)
        (dictUpdate sf.function_kwargs kwargs) := by
  constructor
  · cases args with
    | nil => exact absurd rfl h
    | cons a rest => rfl
  · show sf.custom_call sf.function_args (dictUpdate (dictCopy sf.function_kwargs) kwargs) = _
    rw [dictCopy, custom_call_eq]

/-- Claim C3 witness: a concrete positional call on `wSF` is rejected. -/
theorem C3_positional_override_witness :
    (wSF.call [PyVal.int 1] []).1 = Except.error H5Err.argumentOverrideError := by
  exact (C3_positional_override wSF [PyVal.int 1] [] (List.cons_ne_nil _ _)).1

/-- Claim C7: every invocation — through `__call__` with any keyword
arguments, or through `custom_call` with any arguments — passes the stored
container file path `h5_filename` as the reconstructed callable's first
positional argument automatically; the caller never supplies it. -/
theorem C7_filename_injected (sf : SavedFunction) (ks cks : List (String × PyVal))
    (cargs : List PyVal) :
    (sf.call [] ks).1 =
      runFunction sf._function sf.sandbox_globals
        (PyVal.str sf.h5_filename :: sf.function_args)
        (dictUpdate sf.function_kwargs ks) ∧
    sf.custom_call cargs cks =
      runFunction sf._function sf.sandbox_globals
        (PyVal.str sf.h5_filename :: cargs) cks := by
  constructor
  · show sf.custom_call sf.function_args (dictUpdate (dictCopy sf.function_kwargs) ks) = _
    rw [dictCopy, custom_call_eq]
  · exact custom_call_eq sf cargs cks

/-- Claim C10: `custom_call` invokes the reconstructed callable with the
container file path followed by exactly the call-time positional and
keyword arguments, ignoring the stored `function_args` and
`function_kwargs` entirely (replacing them changes nothing) — so
positional arguments can be overridden through this path. -/
theorem C10_custom_call_ignores_defaults (sf : SavedFunction)
    (args altArgs : List PyVal) (kwargs altKwargs : List (String × PyVal)) :
    sf.custom_call args kwargs =
      runFunction sf._function sf.sandbox_globals
        (PyVal.str sf.h5_filename :: args) kwargs ∧
    ({ sf with function_args := altArgs, function_kwargs := altKwargs }
        : SavedFunction).custom_call args kwargs = sf.custom_call args kwargs := by
  refine ⟨custom_call_eq sf args kwargs, ?_⟩
  rw [custom_call_eq, custom_call_eq]

/-- Claim C4: source normalization performs exactly the claimed steps:
split the extracted source into lines; compute the minimum count of
leading space characters over all lines; drop the first line if and only
if, after removing that many leading spaces, it begins with the decorator
marker `@`; rejoin the remaining lines with exactly that indentation
removed from each. -/
theorem C4_normalization (src l0 : String) (rest : List String) (m : Nat)
    (hsplit : pySplitlines src = l0 :: rest)
    (hmin : ((l0 :: rest).map leadingSpaces).min? = some m) :
    normalizeSource src =
      some (String.intercalate (String.singleton newlineC)
        ((if pyStartsWith (pyDrop l0 m) "@" then (l0 :: rest).drop 1 else l0 :: rest).map
          (fun ln => pyDrop ln m))) := by
  have h1 : ((l0 :: rest).map leadingSpaces).min? =
      some ((rest.map leadingSpaces).foldl min (leadingSpaces l0)) := rfl
  rw [h1] at hmin
  have h2 : (rest.map leadingSpaces).foldl min (leadingSpaces l0) =
      rest.foldl (fun acc ln => min acc (leadingSpaces ln)) (leadingSpaces l0) :=
    List.foldl_map _ _ _ _
  rw [h2] at hmin
  have hm := Option.some.inj hmin
  simp only [normalizeSource, hsplit]
  rw [hm]
  rfl

/-- Claim C4 witness: the normalization of a decorated, indented source. -/
theorem C4_normalization_witness :
    normalizeSource c4src = some "def g(x):\n    return x" :=
  (C4_normalization c4src "    @attach_function(fn)"
    ["    def g(x):", "        return x"] 4 (by decide) (by decide)).trans (by decide)

/-- Claim C5: at capture time the default positional list and the keyword
mapping are encoded with `repr` and checked by decoding with
`ast.literal_eval`; if either round-trip fails, capture fails with the
spec's `NonLiteralValueError` and the store is untouched (the check
precedes all persistence I/O, so nothing is ever written). -/
theorem C5_literal_guard (cfg : AttachConfig) (capt : CapturedFunction) (store : Store)
    (hbad :
      literalRoundTripOK (pyRepr (PyVal.list (cfg.args.getD [])))
        (PyVal.list (cfg.args.getD [])) = false ∨
      literalRoundTripOK (pyRepr (kwargsAsDict (cfg.kwargs.getD [])))
        (kwargsAsDict (cfg.kwargs.getD [])) = false) :
    captureRecord cfg capt = Except.error H5Err.nonLiteralValueError ∧
    attach cfg capt store = (store, Except.error H5Err.nonLiteralValueError) := by
  have hcap : captureRecord cfg capt = Except.error H5Err.nonLiteralValueError := by
    by_cases h1 : literalRoundTripOK (pyRepr (PyVal.list (cfg.args.getD [])))
        (PyVal.list (cfg.args.getD [])) = true
    · have h2 : literalRoundTripOK (pyRepr (kwargsAsDict (cfg.kwargs.getD [])))
          (kwargsAsDict (cfg.kwargs.getD [])) = false := by
        rcases hbad with hb | hb
        · rw [h1] at hb; cases hb
        · exact hb
      simp [captureRecord, h1, h2, bind, Except.bind]
    · have h1f : literalRoundTripOK (pyRepr (PyVal.list (cfg.args.getD [])))
          (PyVal.list (cfg.args.getD [])) = false := by
        simpa using h1
      simp [captureRecord, h1f, bind, Except.bind]
  refine ⟨hcap, ?_⟩
  simp [attach, hcap]

/-- Claim C5 witness: a non-literal object among the positional defaults
is rejected before anything reaches the (empty) store. -/
theorem C5_literal_guard_witness :
    captureRecord c5cfg c6capt = Except.error H5Err.nonLiteralValueError ∧
    attach c5cfg c6capt [] = ([], Except.error H5Err.nonLiteralValueError) :=
  C5_literal_guard c5cfg c6capt [] (Or.inl (by decide))

theorem dlookup_groupDel_append (grp : Group) (n : String) (d : Dataset) :
    dlookup n (groupDel grp n ++ [(n, d)]) = some d := by
  induction grp with
  | nil => simp [groupDel, dlookup]
  | cons kv rest ih =>
    obtain ⟨k0, v0⟩ := kv
    by_cases h : k0 = n
    · simp only [groupDel, List.filter_cons] at ih ⊢
      simp [h, ih]
    · simp only [groupDel, List.filter_cons] at ih ⊢
      simp [h, dlookup, ih]

theorem filter_groupDel_append (grp : Group) (n : String) (d : Dataset) :
    (groupDel grp n ++ [(n, d)]).filter (fun kv => kv.1 == n) = [(n, d)] := by
  induction grp with
  | nil => simp [groupDel, List.filter_cons]
  | cons kv rest ih =>
    obtain ⟨k0, v0⟩ := kv
    by_cases h : k0 = n
    · simp only [groupDel, List.filter_cons] at ih ⊢
      simp [h, ih]
    · simp only [groupDel, List.filter_cons] at ih ⊢
      simp [h, ih]

/-- On a successful capture, the post-save store is the prior store with
the group required into existence and the slot fully replaced by the new
dataset (whether or not the subsequent `SavedFunction` build succeeds). -/
theorem attach_store_eq (cfg : AttachConfig) (capt : CapturedFunction) (store : Store)
    (name : String) (ds : Dataset)
    (hcap : captureRecord cfg capt = Except.ok (name, ds)) :
    (attach cfg capt store).1 =
      storeSet store cfg.groupname
        (groupDel (requireGroup store cfg.groupname) name ++ [(name, ds)]) := by
  unfold attach
  rw [hcap]

/-- Claim C6: whatever the prior store contents, a successful save leaves
the group existing and containing exactly one dataset under the slot name,
equal to the captured record — an existing slot is deleted first (full
replacement, never a merge), so saving twice to the same (group, slot)
leaves exactly one record, the second save's content; the group is created
if absent. -/
theorem C6_slot_replacement (cfg : AttachConfig) (capt : CapturedFunction)
    (store : Store) (name : String) (ds : Dataset)
    (hcap : captureRecord cfg capt = Except.ok (name, ds)) :
    ∃ grp, dlookup cfg.groupname (attach cfg capt store).1 = some grp ∧
      dlookup name grp = some ds ∧
      (grp.filter (fun kv => kv.1 == name)).length = 1 := by
  refine ⟨groupDel (requireGroup store cfg.groupname) name ++ [(name, ds)],
    ?_, dlookup_groupDel_append _ _ _, ?_⟩
  · rw [attach_store_eq cfg capt store name ds hcap]
    exact dlookup_dictSet_self store cfg.groupname _
  · rw [filter_groupDel_append]
    rfl

/-- Claim C6 witness: saving the same capture twice into the same store;
the slot holds exactly the second capture's dataset. -/
theorem C6_slot_replacement_witness :
    ∃ grp, dlookup "saved_functions"
        (attach c6cfg c6capt (attach c6cfg c6capt []).1).1 = some grp ∧
      dlookup "f" grp = some c6ds ∧
      (grp.filter (fun kv => kv.1 == "f")).length = 1 :=
  C6_slot_replacement c6cfg c6capt (attach c6cfg c6capt []).1 "f" c6ds (by rfl)

theorem dlookup_singleton_inv {α : Type} (k k0 : String) (v0 v : α)
    (h : dlookup k [(k0, v0)] = some v) : k0 = k ∧ v0 = v := by
  by_cases hk : k0 = k
  · simp [dlookup, hk] at h
    exact ⟨hk, h⟩
  · simp [dlookup, hk] at h

theorem dlookup_eq_none_of {α : Type} (d : List (String × α)) (x : String)
    (h : ∀ p v, (p, v) ∈ d → p ≠ x) : dlookup x d = Option.none := by
  induction d with
  | nil => rfl
  | cons kv rest ih =>
    obtain ⟨k0, v0⟩ := kv
    have hk : k0 ≠ x := h k0 v0 (List.mem_cons_self _ _)
    simp [dlookup, hk, ih (fun p v hp => h p v (List.mem_cons_of_mem _ hp))]

/-- Forward computation of a successful `SavedFunction.__init__` on a
well-formed record: the resulting object's fields, with the sandbox
namespace holding exactly the one definition the stored source produced. -/
theorem init_ok (filename : String) (ds : Dataset) (f : PyFunc)
    (fn d sg sa sk : String) (la : List PyVal) (kp : List (PyVal × PyVal))
    (kw : List (String × PyVal))
    (hcode : ds.code = SourceCode.defFun f)
    (hn : dlookup "function_name" ds.attrs = some (AttrVal.str fn))
    (hd : dlookup "function_docstring" ds.attrs = some (AttrVal.str d))
    (hs : dlookup "function_signature" ds.attrs = some (AttrVal.str sg))
    (ha : dlookup "function_args" ds.attrs = some (AttrVal.str sa))
    (hla : literal_eval sa = some (PyVal.list la))
    (hk : dlookup "function_kwargs" ds.attrs = some (AttrVal.str sk))
    (hlk : literal_eval sk = some (PyVal.dict kp))
    (hstr : strKeyed kp = Except.ok kw)
    (hmatch : fn = f.name) :
    SavedFunction.init filename ds = Except.ok
      { _function := f,
        sandbox_globals := [(f.name, NsVal.func f)],
        function_docstring := d,
        function_signature := sg,
        function_source := ds.data,
        function_name := fn,
        function_args := la,
        function_kwargs := kw,
        h5_filename := filename } := by
  subst hmatch
  unfold SavedFunction.init
  simp only [hn, hd, hs, ha, hla, hk, hlk, hstr, hcode, execSource, dictSet,
    bind, Except.bind]
  simp [dlookup]

/-- Inversion of a successful `SavedFunction.__init__`: a built
`SavedFunction` wraps the one function its stored source defines, its
globals are the sandbox namespace holding exactly that definition (nothing
from any caller), its recorded name matches the definition's name, its
source is the dataset payload, and its `h5_filename` is the path of the
file it was built from. -/
theorem init_inv (filename : String) (ds : Dataset) (sf : SavedFunction)
    (hinit : SavedFunction.init filename ds = Except.ok sf) :
    ∃ f, ds.code = SourceCode.defFun f ∧ sf._function = f ∧
      sf.sandbox_globals = [(f.name, NsVal.func f)] ∧
      sf.function_name = f.name ∧
      sf.function_source = ds.data ∧
      sf.h5_filename = filename := by
  cases hc : ds.code with
  | raisesExc =>
    exfalso
    unfold SavedFunction.init at hinit
    rw [hc] at hinit
    simp only [execSource, bind, Except.bind] at hinit
    repeat split at hinit
    all_goals exact absurd hinit (by simp)
  | defFun f =>
    unfold SavedFunction.init at hinit
    rw [hc] at hinit
    simp only [execSource, dictSet, bind, Except.bind] at hinit
    repeat split at hinit
    all_goals try exact absurd hinit (by simp)
    split at hinit
    · rename_i f2 heq
      obtain ⟨hk, hv⟩ := dlookup_singleton_inv _ _ _ _ heq
      injection hv with hv2
      injection hinit with hrec
      subst hrec
      subst hv2
      exact ⟨f, rfl, rfl, rfl, hk.symm, rfl, rfl⟩
    · exact absurd hinit (by simp)

/-- Claim C1 counterexample: `c1sf` is built by `attach` from a capture
whose body is `return f` — a reference to the captured function's own
name. That name is neither a parameter of the function nor a built-in,
yet the call returns the function object instead of failing with a
`NameError`: the reconstruction namespace, which becomes the function's
globals, also binds the captured function's own name. -/
theorem C1_counterexample :
    (attach c1cfg c1capt []).2 = Except.ok c1sf ∧
    c1func.body = [PyStmt.ret (PyExpr.name "f")] ∧
    "f" ∉ c1sf._function.params ∧
    "f" ∉ builtinNames ∧
    (c1sf.call [] []).1 = Except.ok (NsVal.func c1func) :=
  ⟨by rfl, rfl, by decide, by decide, by rfl⟩

/-- Claim C1 (amended): each invocation of a built `SavedFunction`
executes the reconstructed callable inside a fresh namespace containing
exactly the four bindings (file path, function object, positional tuple,
keyword dict); and a reference by the captured source to a name outside
the call's local scope (whose names are drawn from the function's
parameters), outside the built-ins, *and other than the captured
function's own name* — the one name the reconstruction namespace binds —
fails with a `NameError` at call time, on every call, regardless of what
the calling scope defines (no calling-scope name can reach the sandbox). -/
theorem C1_isolation_amended (filename : String) (ds : Dataset) (sf : SavedFunction)
    (hinit : SavedFunction.init filename ds = Except.ok sf)
    (args : List PyVal) (kwargs : List (String × PyVal))
    (x : String) (locals : Namespace)
    (hl : ∀ p, p ∈ locals.map Prod.fst → p ∈ sf._function.params)
    (hx1 : x ∉ sf._function.params) (hx2 : x ≠ sf.function_name)
    (hx3 : x ∉ builtinNames) :
    (customCallNamespace sf args kwargs).map Prod.fst =
      ["__h5s_filename", "__h5s_function", "__h5s_args", "__h5s_kwargs"] ∧
    evalExpr (PyExpr.name x) locals sf.sandbox_globals =
      Except.error (H5Err.nameError x) := by
  obtain ⟨f, hc, hf, hg, hfn, hsrc, hfile⟩ := init_inv filename ds sf hinit
  refine ⟨rfl, ?_⟩
  have hloc : dlookup x locals = Option.none := by
    refine dlookup_eq_none_of locals x (fun p v hp hpx => ?_)
    exact hx1 (hpx ▸ hl p (List.mem_map_of_mem Prod.fst hp))
  have hglob : dlookup x sf.sandbox_globals = Option.none := by
    rw [hg]
    have : f.name ≠ x := fun h => hx2 (hfn.trans h).symm
    simp [dlookup, this]
  simp [evalExpr, lookupName, hloc, hglob, hx3]

/-- Claim C1 (amended) witness: a reference to `undefined_name` from a
call of the `SavedFunction` built from `c6ds` raises `NameError`. -/
theorem C1_isolation_amended_witness :
    (customCallNamespace c6sf [] []).map Prod.fst =
      ["__h5s_filename", "__h5s_function", "__h5s_args", "__h5s_kwargs"] ∧
    evalExpr (PyExpr.name "undefined_name")
        [("h5_filename", NsVal.pv (PyVal.str "t.h5"))] c6sf.sandbox_globals =
      Except.error (H5Err.nameError "undefined_name") :=
  C1_isolation_amended "t.h5" c6ds c6sf (by rfl) [] []
    "undefined_name" [("h5_filename", NsVal.pv (PyVal.str "t.h5"))]
    (fun p h => h) (by decide) (by decide) (by decide)

/-- Claim C8: `SavedFunction.__init__` executes the stored source in the
empty sandbox namespace (built-ins are ambient; no caller or module state
is reachable), fails with the spec's `ReconstructionError` when executing
the source raises or when the recorded function name is not bound in the
namespace afterwards — the failure being `__init__`'s own outcome, hence
surfaced by the load operation, which returns exactly what the build
returns — and on success the function's globals hold exactly the one
definition the source produced. -/
theorem C8_reconstruction (filename : String) (ds : Dataset)
    (fn d sg sa sk : String) (la : List PyVal) (kp : List (PyVal × PyVal))
    (kw : List (String × PyVal))
    (hn : dlookup "function_name" ds.attrs = some (AttrVal.str fn))
    (hd : dlookup "function_docstring" ds.attrs = some (AttrVal.str d))
    (hs : dlookup "function_signature" ds.attrs = some (AttrVal.str sg))
    (ha : dlookup "function_args" ds.attrs = some (AttrVal.str sa))
    (hla : literal_eval sa = some (PyVal.list la))
    (hk : dlookup "function_kwargs" ds.attrs = some (AttrVal.str sk))
    (hlk : literal_eval sk = some (PyVal.dict kp))
    (hstr : strKeyed kp = Except.ok kw) :
    (ds.code = SourceCode.raisesExc →
      SavedFunction.init filename ds = Except.error H5Err.reconstructionError) ∧
    (∀ f : PyFunc, ds.code = SourceCode.defFun f → fn ≠ f.name →
      SavedFunction.init filename ds = Except.error H5Err.reconstructionError) ∧
    (∀ f : PyFunc, ds.code = SourceCode.defFun f → fn = f.name →
      SavedFunction.init filename ds = Except.ok
        { _function := f,
          sandbox_globals := [(f.name, NsVal.func f)],
          function_docstring := d,
          function_signature := sg,
          function_source := ds.data,
          function_name := fn,
          function_args := la,
          function_kwargs := kw,
          h5_filename := filename }) ∧
    (∀ (store : Store) (grp : Group) (gname n : String),
      dlookup gname store = some grp → dlookup n grp = some ds →
      isCapsule ds.attrs = true →
      get_saved_function filename store n gname = SavedFunction.init filename ds) := by
  refine ⟨?_, ?_, ?_, ?_⟩
  · intro hcode
    unfold SavedFunction.init
    simp [hn, hd, hs, ha, hla, hk, hlk, hstr, hcode, execSource, bind, Except.bind]
  · intro f hcode hne
    unfold SavedFunction.init
    simp [hn, hd, hs, ha, hla, hk, hlk, hstr, hcode, execSource, dictSet,
      dlookup, Ne.symm hne, bind, Except.bind]
  · intro f hcode hmatch
    exact init_ok filename ds f fn d sg sa sk la kp kw hcode hn hd hs ha hla hk hlk hstr hmatch
  · intro store grp gname n hg hds hm
    unfold get_saved_function
    simp [hg, hds, hm, bind, Except.bind]

/-- Claim C8 witness: a well-formed record whose source raises fails the
build with the spec's `ReconstructionError`. -/
theorem C8_reconstruction_witness :
    SavedFunction.init "t.h5" c8ds = Except.error H5Err.reconstructionError :=
  (C8_reconstruction "t.h5" c8ds "f" "" "f(h5_filename)" "[]" "\x7b\x7d" [] [] []
    rfl rfl rfl rfl rfl rfl rfl rfl).1 rfl

/-- Claim C9: loading by (container, group, slot) fails with the spec's
`SlotNotFoundError` when the group or the slot is absent; fails with the
spec's `NotACapsuleError` when the slot exists but its
`__h5scripting_function` marker attribute is absent or not truthy; and
when the marker is present and true on a well-formed capsule record,
returns the fully populated `SavedFunction`, with `function_args` and
`function_kwargs` decoded from the stored literal text. -/
theorem C9_load (filename : String) (store : Store) (n gname : String) :
    (dlookup gname store = Option.none →
      get_saved_function filename store n gname = Except.error H5Err.slotNotFoundError) ∧
    (∀ grp : Group, dlookup gname store = some grp → dlookup n grp = Option.none →
      get_saved_function filename store n gname = Except.error H5Err.slotNotFoundError) ∧
    (∀ (grp : Group) (ds : Dataset), dlookup gname store = some grp →
      dlookup n grp = some ds → isCapsule ds.attrs = false →
      get_saved_function filename store n gname = Except.error H5Err.notACapsuleError) ∧
    (∀ (grp : Group) (ds : Dataset), dlookup gname store = some grp →
      dlookup n grp = some ds → isCapsule ds.attrs = true →
      ∀ (f : PyFunc) (fn d sg sa sk : String) (la : List PyVal)
        (kp : List (PyVal × PyVal)) (kw : List (String × PyVal)),
        ds.code = SourceCode.defFun f →
        dlookup "function_name" ds.attrs = some (AttrVal.str fn) →
        dlookup "function_docstring" ds.attrs = some (AttrVal.str d) →
        dlookup "function_signature" ds.attrs = some (AttrVal.str sg) →
        dlookup "function_args" ds.attrs = some (AttrVal.str sa) →
        literal_eval sa = some (PyVal.list la) →
        dlookup "function_kwargs" ds.attrs = some (AttrVal.str sk) →
        literal_eval sk = some (PyVal.dict kp) →
        strKeyed kp = Except.ok kw →
        fn = f.name →
        get_saved_function filename store n gname = Except.ok
          { _function := f,
            sandbox_globals := [(f.name, NsVal.func f)],
            function_docstring := d,
            function_signature := sg,
            function_source := ds.data,
            function_name := fn,
            function_args := la,
            function_kwargs := kw,
            h5_filename := filename }) := by
  refine ⟨?_, ?_, ?_, ?_⟩
  · intro hg
    unfold get_saved_function
    simp [hg, bind, Except.bind]
  · intro grp hg hn2
    unfold get_saved_function
    simp [hg, hn2, bind, Except.bind]
  · intro grp ds hg hds hm
    unfold get_saved_function
    simp [hg, hds, hm, bind, Except.bind]
  · intro grp ds hg hds hm f fn d sg sa sk la kp kw hcode hn2 hd2 hs2 ha2 hla2 hk2 hlk2 hstr2 hfn
    unfold get_saved_function
    simp only [hg, hds, hm, bind, Except.bind, if_true]
    exact init_ok filename ds f fn d sg sa sk la kp kw hcode hn2 hd2 hs2 ha2 hla2 hk2 hlk2 hstr2 hfn

/-- Claim C9 witness: on a store with one capsule slot and one plain data
slot, all four load outcomes at concrete inputs. -/
theorem C9_load_witness :
    get_saved_function "t.h5" c9store "f" "nogroup" = Except.error H5Err.slotNotFoundError ∧
    get_saved_function "t.h5" c9store "nope" "saved_functions" = Except.error H5Err.slotNotFoundError ∧
    get_saved_function "t.h5" c9store "plain" "saved_functions" = Except.error H5Err.notACapsuleError ∧
    get_saved_function "t.h5" c9store "f" "saved_functions" = Except.ok c6sf := by
  refine ⟨(C9_load "t.h5" c9store "f" "nogroup").1 rfl,
    (C9_load "t.h5" c9store "nope" "saved_functions").2.1 _ rfl rfl,
    (C9_load "t.h5" c9store "plain" "saved_functions").2.2.1 _ c9plain rfl rfl rfl, ?_⟩
  exact (C9_load "t.h5" c9store "f" "saved_functions").2.2.2 _ c6ds rfl rfl rfl
    c6func "f" "" "f(h5_filename)" "[]" "\x7b\x7d" [] [] []
    rfl rfl rfl rfl rfl rfl rfl rfl rfl rfl

end H5S
